import Mathlib

set_option maxRecDepth 4000

/-!
Shallow embedding of src/read.c of proxyfs-jrpc-client: the client-side
read path (read-plan wire decoding, IO-plan construction, blob fetching,
and the three caching strategies NoCache / SegmentCache / FileCache).
External collaborators (metadata socket, blob-store client, cache
service) are supplied as oracles; machine integers are Nat/Int with
explicit mod 2^64 where uint64_t wraparound matters.
-/

/-- Linux errno value ENOENT, the cache-miss signal in read.c. -/
def ENOENT : Int := 2

/-- Linux errno value EBADF. -/
def EBADF : Int := 9

/-- Linux errno value ENODEV. -/
def ENODEV : Int := 19

/-- Linux errno value EPIPE. -/
def EPIPE : Int := 32

/-- Linux errno value ECONNRESET, used below as a transport error outside
the designated pipe-closed / device-gone / bad-descriptor set. -/
def ECONNRESET : Int := 104

/-- Unsigned 64-bit subtraction a - b for operands below 2^64, as computed
by C uint64_t arithmetic (wraps on underflow). -/
def sub64 (a b : Nat) : Nat := (a + 2 ^ 64 - b) % 2 ^ 64

/-- The fields of proxyfs_io_request_t that the read path consumes. -/
structure Req where
  offset : Nat
  length : Nat
  deriving DecidableEq

/-- One record of a read plan (read_plan_range_t): backend object path,
start offset inside that object, reconstructed logical offset, and size.
An empty path denotes a sparse hole. -/
structure RangeMapping where
  obj_path : String
  obj_start : Nat
  offset : Nat
  size : Nat
  deriving DecidableEq

/-- read_plan_t: file size, size covered by the plan, and the records. -/
structure ReadPlan where
  file_size : Nat
  read_plan_size : Nat
  ranges : List RangeMapping
  deriving DecidableEq

/-- range_t of the IO plan (read.c): start and end offsets inside the
backend object, the index into the caller buffer where the data pointer
points (C stores a char pointer), and data_size. The C field `end` is a
Lean keyword and is named stop here. -/
structure IORange where
  start : Nat
  stop : Nat
  buf_idx : Nat
  data_size : Nat
  deriving DecidableEq

/-- read_obj_t: one backend object of the IO plan with its ranges. -/
structure ReadObj where
  obj_path : String
  obj_num : Nat
  ranges : List IORange
  deriving DecidableEq

/-- read_io_plan_t: the object list (most recently created first, since
read.c prepends) and data_size, the clamped byte count (a C int). -/
structure ReadIOPlan where
  objs : List ReadObj
  data_size : Int
  deriving DecidableEq

/-- Value of one hexadecimal digit, as consumed by strtol base 16. -/
def hexDigit (c : Char) : Option Nat :=
  if '0' ≤ c ∧ c ≤ '9' then some (c.toNat - '0'.toNat)
  else if 'a' ≤ c ∧ c ≤ 'f' then some (c.toNat - 'a'.toNat + 10)
  else if 'A' ≤ c ∧ c ≤ 'F' then some (c.toNat - 'A'.toNat + 10)
  else none

/-- Accumulator loop of strtol base 16: consume the leading run of hex
digits. -/
def strtol16Go : List Char → Nat → Nat
  | [], acc => acc
  | c :: r, acc =>
    match hexDigit c with
    | some v => strtol16Go r (acc * 16 + v)
    | none => acc

/-- strtol(s, NULL, 16) on the object-path basenames arising here (no
sign, whitespace or 0x handling is exercised by these inputs). -/
def strtol16 (s : String) : Nat := strtol16Go s.data 0

/-- libgen basename(3) on the paths arising here: strip trailing slashes,
then take the final path component; the empty path gives "." and an
all-slash path gives "/", as glibc does. -/
def basenameStr (s : String) : String :=
  let rev := s.data.reverse.dropWhile (fun c => c == '/')
  let base := rev.takeWhile (fun c => c != '/')
  if base = [] then (if s.data.contains '/' then "/" else ".")
  else String.mk base.reverse

/-- read.c insert_range: append one range [start, start+count) with its
destination slice to the object's range array. -/
def insert_range (obj : ReadObj) (start count buf_idx : Nat) : ReadObj :=
  { obj with ranges := obj.ranges ++ [⟨start, start + count, buf_idx, count⟩] }

/-- The scan of read_io_plan_rec_add (read.c:391-397): find the object
whose path equals obj_path and append the range to it; none when no
object has that path. -/
def rec_add_find (buf_idx count obj_start : Nat) (obj_path : String) :
    List ReadObj → Option (List ReadObj)
  | [] => none
  | o :: os =>
    if o.obj_path = obj_path then some (insert_range o obj_start count buf_idx :: os)
    else
      match rec_add_find buf_idx count obj_start obj_path os with
      | some os2 => some (o :: os2)
      | none => none

/-- read.c read_io_plan_rec_add: append the range to the object with this
path, or create a new object — prepended to the list (read.c:408-409) —
when none exists; its obj_num is strtol(basename(path), NULL, 16)
(read.c:403). -/
def read_io_plan_rec_add (objs : List ReadObj) (buf_idx count obj_start : Nat)
    (obj_path : String) : List ReadObj :=
  match rec_add_find buf_idx count obj_start obj_path objs with
  | some objs2 => objs2
  | none =>
    insert_range ⟨obj_path, strtol16 (basenameStr obj_path), []⟩ obj_start count buf_idx :: objs

/-- The range walk of build_read_io_plan (read.c:486-497). count is the C
int byte budget; the loop runs while count > 0. Note the source never
advances buf_idx (read.c:485 initialises it to 0 and no statement updates
it), so every destination slice points at the start of the caller
buffer; this is modelled faithfully by passing buf_idx through
unchanged. -/
def buildLoop : Int → Nat → Nat → List ReadObj → List RangeMapping → List ReadObj
  | _, _, _, objs, [] => objs
  | count, start, buf_idx, objs, m :: ms =>
    if count ≤ 0 then objs
    else if m.offset + m.size < start then buildLoop count start buf_idx objs ms
    else
      let read_in_rec : Nat := m.size + m.offset - start
      let elm_start : Nat := sub64 (m.obj_start + start) m.offset
      let elm_count : Nat := if (read_in_rec : Int) > count then count.toNat else read_in_rec
      buildLoop (count - (elm_count : Int)) (start + elm_count) buf_idx
        (read_io_plan_rec_add objs buf_idx elm_count elm_start m.obj_path) ms

/-- read.c build_read_io_plan: clamp the request against the plan's file
size (read.c:468-474), set data_size to the clamped count, then walk the
plan's ranges. -/
def build_read_io_plan (rp : ReadPlan) (req : Req) : ReadIOPlan :=
  let start := req.offset
  let count : Int :=
    if start > rp.file_size then 0
    else if start + req.length > rp.file_size then (rp.file_size : Int) - (start : Int)
    else (req.length : Int)
  { objs := buildLoop count start 0 [] rp.ranges, data_size := count }

/-- Total number of IORange entries across all objects of an IO plan. -/
def totalRanges (p : ReadIOPlan) : Nat := (p.objs.map (fun o => o.ranges.length)).sum

/-- Little-endian 64-bit load at index i of a byte buffer, as the casts
*(uint64_t *)buf in buf_to_readplan read it. -/
def readU64 (bs : List Nat) (i : Nat) : Nat :=
  bs.getD i 0 + bs.getD (i + 1) 0 * 2 ^ 8 + bs.getD (i + 2) 0 * 2 ^ 16 +
  bs.getD (i + 3) 0 * 2 ^ 24 + bs.getD (i + 4) 0 * 2 ^ 32 + bs.getD (i + 5) 0 * 2 ^ 40 +
  bs.getD (i + 6) 0 * 2 ^ 48 + bs.getD (i + 7) 0 * 2 ^ 56

/-- C strlen at index i: length of the run of nonzero bytes. -/
def strlenFrom (bs : List Nat) (i : Nat) : Nat :=
  ((bs.drop i).takeWhile (fun b => b != 0)).length

/-- The NUL-terminated string at index i, as strdup reads it. -/
def strFrom (bs : List Nat) (i : Nat) : String :=
  String.mk (((bs.drop i).takeWhile (fun b => b != 0)).map Char.ofNat)

/-- The record loop of buf_to_readplan (read.c:529-540). After reading the
object path the cursor advances by strlen(buf) only — the source does not
skip the NUL terminator. The logical offset accumulates the record sizes
as decoded. -/
def decodeRanges (bs : List Nat) : Nat → Nat → Nat → List RangeMapping
  | 0, _, _ => []
  | n + 1, cur, off =>
    let obj_path := strFrom bs cur
    let cur1 := cur + strlenFrom bs cur
    let start := readU64 bs cur1
    let cur2 := cur1 + 8
    let rec_size := readU64 bs cur2
    ⟨obj_path, start, off, rec_size⟩ :: decodeRanges bs n (cur2 + 8) (off + rec_size)

/-- read.c buf_to_readplan: header of three uint64 fields — file_size,
read_plan_size, range_count — then range_count records. -/
def buf_to_readplan (bs : List Nat) (offset : Nat) : ReadPlan :=
  { file_size := readU64 bs 0
    read_plan_size := readU64 bs 8
    ranges := decodeRanges bs (readU64 bs 16) 24 offset }

/-- Little-endian encoding of one 64-bit wire field (spec section 4.1). -/
def encodeU64 (n : Nat) : List Nat :=
  [n % 2 ^ 8, n / 2 ^ 8 % 2 ^ 8, n / 2 ^ 16 % 2 ^ 8, n / 2 ^ 24 % 2 ^ 8,
   n / 2 ^ 32 % 2 ^ 8, n / 2 ^ 40 % 2 ^ 8, n / 2 ^ 48 % 2 ^ 8, n / 2 ^ 56 % 2 ^ 8]

/-- One wire record per the spec and the format comment at read.c:502-509:
NUL-terminated object path, object_start_offset(8), record_size(8). -/
def encodeRecord (path : String) (start size : Nat) : List Nat :=
  path.data.map Char.toNat ++ [0] ++ encodeU64 start ++ encodeU64 size

/-- A well-formed wire payload: file_size(8), read_plan_total_size(8),
range_count(8), then the records. -/
def encodePayload (file_size total : Nat) (recs : List (String × Nat × Nat)) : List Nat :=
  encodeU64 file_size ++ encodeU64 total ++ encodeU64 recs.length ++
  (recs.map (fun r => encodeRecord r.1 r.2.1 r.2.2)).flatten

/-- Trace of one get_read_io_plan_data execution: the object paths a GET
request was issued for, the object paths a response was read for, and the
first loop-local error value encountered (0 when none). -/
structure FetchTrace where
  requests : List String
  responses : List String
  firstErr : Int
  deriving DecidableEq

/-- Request phase of get_read_io_plan_data (read.c:433-441): holes (empty
path) are skipped; one batched GET request is issued per object; the
first failure stops the loop (goto done). The csw_get_request result is
the freq oracle. -/
def reqPhase (freq : ReadObj → Int) : List ReadObj → List String × Int
  | [] => ([], 0)
  | o :: os =>
    if o.obj_path = "" then reqPhase freq os
    else
      let e := freq o
      if e ≠ 0 then ([o.obj_path], e)
      else
        let r := reqPhase freq os
        (o.obj_path :: r.1, r.2)

/-- Response phase of get_read_io_plan_data (read.c:443-451), same shape
over csw_get_response (the fresp oracle). -/
def respPhase (fresp : ReadObj → Int) : List ReadObj → List String × Int
  | [] => ([], 0)
  | o :: os =>
    if o.obj_path = "" then respPhase fresp os
    else
      let e := fresp o
      if e ≠ 0 then ([o.obj_path], e)
      else
        let r := respPhase fresp os
        (o.obj_path :: r.1, r.2)

/-- read.c get_read_io_plan_data. The outer err (read.c:419) is shadowed
by the loop-local `int err` declarations at read.c:437 and read.c:447, so
it is never assigned and `return -err` (read.c:461) returns -0 on every
path. The socket acquire/release loops have no observable effect and are
not modelled. -/
def get_read_io_plan_data (rp : ReadIOPlan) (freq fresp : ReadObj → Int) :
    Int × FetchTrace :=
  let err : Int := 0
  let rq := reqPhase freq rp.objs
  if rq.2 ≠ 0 then (-err, ⟨rq.1, [], rq.2⟩)
  else
    let rs := respPhase fresp rp.objs
    (-err, ⟨rq.1, rs.1, rs.2⟩)

/-- External collaborators of read_no_cache: the read-plan cache lookup
result as the (errno, value) pair cache_get produces (0 = hit, ENOENT =
miss), get_read_plan as a function of offset and length, and the csw
request/response results per object. -/
structure NCEnv where
  planCacheGet : Int × ReadPlan
  fetchPlan : Nat → Nat → Except Int ReadPlan
  freq : ReadObj → Int
  fresp : ReadObj → Int

/-- Observable outcome of read_no_cache: req.error, req.out_size (none
when an early return leaves it untouched), the get_read_plan calls made
as (offset, length) pairs, whether the plan was inserted into the cache,
and the blob-fetch trace. The C function's own return value is 0 on
every path. -/
structure NCOut where
  error : Int
  out_size : Option Int
  planFetches : List (Nat × Nat)
  planCacheInsert : Bool
  trace : Option FetchTrace
  deriving DecidableEq

/-- Tail of read_no_cache (read.c:106-121): build the IO plan, run the
blob fetch, set out_size := io_plan.data_size and error := the fetcher's
return value. The io_plan == NULL branch models a malloc failure only
and is omitted. -/
def read_no_cache_fetch (req : Req) (rp : ReadPlan) (fetches : List (Nat × Nat))
    (inserted : Bool) (env : NCEnv) : NCOut :=
  let io := build_read_io_plan rp req
  let r := get_read_io_plan_data io env.freq env.fresp
  ⟨r.1, some io.data_size, fetches, inserted, some r.2⟩

/-- read.c read_no_cache. With cache_read_plan set (the FileCache path),
the plan is looked up under the inode key: a non-ENOENT cache error goes
to req.error with nothing fetched (read.c:81-84); ENOENT fetches the plan
for (0, size) and inserts it (read.c:87-96). Otherwise the plan is
fetched for (req.offset, req.length) (read.c:99). -/
def read_no_cache (req : Req) (cache_read_plan : Bool) (size : Nat) (env : NCEnv) : NCOut :=
  if cache_read_plan then
    let c := env.planCacheGet
    if c.1 ≠ 0 then
      if c.1 ≠ ENOENT then ⟨c.1, none, [], false, none⟩
      else
        match env.fetchPlan 0 size with
        | .error e => ⟨e, none, [(0, size)], false, none⟩
        | .ok rp => read_no_cache_fetch req rp [(0, size)] true env
    else read_no_cache_fetch req c.2 [] false env
  else
    match env.fetchPlan req.offset req.length with
    | .error e => ⟨e, none, [(req.offset, req.length)], false, none⟩
    | .ok rp => read_no_cache_fetch req rp [(req.offset, req.length)] false env

/-- Outcome of get_read_plan's handling of a failed payload read: either
the process is aborted (PANIC) or an error value is returned to the
caller. -/
inductive PlanReadOutcome where
  | panic : PlanReadOutcome
  | propagate : Int → PlanReadOutcome
  deriving DecidableEq

/-- Literal translation of the payload-read failure handling in
get_read_plan (read.c:580-589): `err = -err;` then
`if ((err == EPIPE) || (err == ENODEV) || (err = EBADF)) PANIC;`.
The third disjunct is the C assignment `err = EBADF`, whose value is
EBADF; since EBADF is nonzero the disjunct is true whenever it is
evaluated, and the else branch would return the freshly assigned EBADF. -/
def payload_fail_handling (e : Int) : PlanReadOutcome :=
  let e1 := -e
  if e1 = EPIPE then .panic
  else if e1 = ENODEV then .panic
  else if EBADF ≠ 0 then .panic
  else .propagate EBADF

/-- bcopy of src into dst starting at position pos, preserving the length
of dst. -/
def writeBytes (dst : List Nat) (pos : Nat) (src : List Nat) : List Nat :=
  (List.range dst.length).map (fun i =>
    if pos ≤ i ∧ i < pos + src.length then src.getD (i - pos) 0 else dst.getD i 0)

/-- External collaborators of read_seg_cache: the cache-line size, the
request, get_read_plan indexed by attempt number, the segment-cache
lookup keyed by (segment, object number) as the (errno, value) pair
cache_get produces, and the backend single-range GET (get_data) indexed
by the number of get_data calls made so far, as an (errno, data) pair. -/
structure SegEnv where
  cls : Nat
  req : Req
  planFetch : Nat → Except Int ReadPlan
  cacheGet : Nat × Nat → Int × List Nat
  backend : Nat → Int × List Nat

/-- State threaded through read_seg_cache: the caller buffer, the number
of get_read_plan calls, the number of get_data calls, the get_data calls
as (path, offset, length) triples, and the cache inserts as
(segment, object number) keys. -/
structure SegState where
  buf : List Nat
  planFetches : Nat
  getIdx : Nat
  gets : List (String × Nat × Nat)
  inserts : List (Nat × Nat)
  deriving DecidableEq

/-- Result of one pass over the IO plan in read_seg_cache: completed,
cache error to propagate, stale plan (a direct GET failed, goto retry),
or fuel exhausted. -/
inductive SegStep where
  | ok : SegState → SegStep
  | cacheFail : Int → SegState → SegStep
  | stale : SegState → SegStep
  | fuelOut : SegStep
  deriving DecidableEq

/-- Innermost loop of read_seg_cache (read.c:185-216): walk one range
cache-line by cache-line. A non-ENOENT cache error propagates
(read.c:193-197); on ENOENT the direct aligned GET is issued
(read.c:200) — its failure makes the plan stale (read.c:203-204) — and
on success the line is inserted (read.c:207). Then fill_cnt bytes are
copied from the line into the destination slice (read.c:210-215). Note
the source performs no hole check in this strategy. -/
def seg_off_loop (env : SegEnv) (obj : ReadObj) (range : IORange) :
    Nat → Nat → Nat → SegState → SegStep
  | 0, _, _, _ => .fuelOut
  | fuel + 1, off, buf_off, st =>
    if off < range.stop then
      let seg := off / env.cls
      let cont : List Nat → SegState → SegStep := fun data stx =>
        let fc0 := env.cls - off % env.cls
        let fill_cnt := if fc0 > range.stop - off then range.stop - off else fc0
        let stx2 : SegState := { stx with
          buf := writeBytes stx.buf (range.buf_idx + buf_off)
            ((data.drop (off % env.cls)).take fill_cnt) }
        seg_off_loop env obj range fuel (off + fill_cnt) (buf_off + fill_cnt) stx2
      let c := env.cacheGet (seg, obj.obj_num)
      if c.1 ≠ 0 then
        if c.1 ≠ ENOENT then .cacheFail c.1 st
        else
          let g := env.backend st.getIdx
          let st1 : SegState := { st with
            getIdx := st.getIdx + 1
            gets := st.gets ++ [(obj.obj_path, seg * env.cls, env.cls)] }
          if g.1 ≠ 0 then .stale st1
          else
            let st2 : SegState := { st1 with inserts := st1.inserts ++ [(seg, obj.obj_num)] }
            cont g.2 st2
      else cont c.2 st
    else .ok st

/-- Range iteration of read_seg_cache (read.c:178-217). -/
def seg_ranges_loop (env : SegEnv) (obj : ReadObj) (fuel : Nat) :
    List IORange → SegState → SegStep
  | [], st => .ok st
  | r :: rs, st =>
    match seg_off_loop env obj r fuel r.start 0 st with
    | .ok st2 => seg_ranges_loop env obj fuel rs st2
    | x => x

/-- Object iteration of read_seg_cache (read.c:174-218). Unlike
get_read_io_plan_data, the source iterates hole objects too. -/
def seg_objs_loop (env : SegEnv) (fuel : Nat) : List ReadObj → SegState → SegStep
  | [], st => .ok st
  | o :: os, st =>
    match seg_ranges_loop env o fuel o.ranges st with
    | .ok st2 => seg_objs_loop env fuel os st2
    | x => x

/-- Final outcome of read_seg_cache: success carries req.out_size (the IO
plan's data_size, read.c:221) and the final state; failure carries
req.error. -/
inductive SegResult where
  | success : Int → SegState → SegResult
  | failure : Int → SegState → SegResult
  | fuelOut : SegResult
  deriving DecidableEq

/-- read.c read_seg_cache: fetch the plan (read.c:160), build the IO plan,
run the loops; a stale pass discards the plan and restarts from plan
re-fetch (goto retry, read.c:159/204). retryFuel bounds the unbounded C
retry loop; planFetches counts get_read_plan calls. -/
def read_seg_cache_go (env : SegEnv) : Nat → Nat → Nat → SegState → SegResult
  | 0, _, _, _ => .fuelOut
  | retryFuel + 1, loopFuel, attempt, st =>
    let st1 : SegState := { st with planFetches := st.planFetches + 1 }
    match env.planFetch attempt with
    | .error e => .failure e st1
    | .ok rp =>
      let io := build_read_io_plan rp env.req
      match seg_objs_loop env loopFuel io.objs st1 with
      | .ok st2 => .success io.data_size st2
      | .cacheFail e st2 => .failure e st2
      | .stale st2 => read_seg_cache_go env retryFuel loopFuel (attempt + 1) st2
      | .fuelOut => .fuelOut

/-- External collaborators of read_file_cache: the cache-line size, the
file-size cache lookup (errno, size), the stat RPC result, the per
segment data-cache lookup (errno, line), the bytes an inner fetch
deposits in the freshly malloc'd line for a segment, and the environment
of the delegated read_no_cache call. -/
structure FCEnv where
  cls : Nat
  sizeCacheGet : Int × Nat
  statRes : Except Int Nat
  dataCacheGet : Nat → Int × List Nat
  lineBytes : Nat → List Nat
  ncEnv : NCEnv

/-- State threaded through the read_file_cache segment loop: the inner
read_no_cache calls as (offset, length, size-argument) triples, the plan
fetches those inner calls performed, the data-cache inserts by segment
number, and the caller buffer. -/
structure FCState where
  innerCalls : List (Nat × Nat × Nat)
  innerPlanFetches : List (Nat × Nat)
  inserts : List Nat
  buf : List Nat
  deriving DecidableEq

/-- Result of the read_file_cache segment loop. -/
inductive FCStep where
  | ok : FCState → FCStep
  | fail : Int → FCState → FCStep
  | fuelOut : FCStep
  deriving DecidableEq

/-- Segment loop of read_file_cache (read.c:293-330). fill_cnt is the
aligned-line remainder clamped to the window end (read.c:294-298). A
non-ENOENT data-cache error propagates (read.c:308-311); on ENOENT the
aligned line is delegated to read_no_cache with cache_read_plan set and
size := the clamped window end (read.c:313-318) — note the source passes
`end`, not the file size — then the line is inserted and copied. The C
read_no_cache return value is 0 on every path, so the error test
read.c:319 reduces to cache_req.error. -/
def fc_loop (env : FCEnv) (endv : Nat) : Nat → Nat → Nat → FCState → FCStep
  | 0, _, _, _ => .fuelOut
  | fuel + 1, off, buf_off, st =>
    if off < endv then
      let fc0 := env.cls - off % env.cls
      let fill_cnt := if endv - off < fc0 then endv - off else fc0
      let seg := off / env.cls
      let c := env.dataCacheGet seg
      if c.1 ≠ 0 then
        if c.1 ≠ ENOENT then .fail c.1 st
        else
          let inner := read_no_cache ⟨seg * env.cls, env.cls⟩ true endv env.ncEnv
          let st1 : FCState := { st with
            innerCalls := st.innerCalls ++ [(seg * env.cls, env.cls, endv)]
            innerPlanFetches := st.innerPlanFetches ++ inner.planFetches }
          if inner.error ≠ 0 then .fail inner.error st1
          else
            let data := env.lineBytes seg
            let st2 : FCState := { st1 with
              inserts := st1.inserts ++ [seg]
              buf := writeBytes st1.buf buf_off ((data.drop (off % env.cls)).take fill_cnt) }
            fc_loop env endv fuel (off + fill_cnt) (buf_off + fill_cnt) st2
      else
        let st2 : FCState := { st with
          buf := writeBytes st.buf buf_off ((c.2.drop (off % env.cls)).take fill_cnt) }
        fc_loop env endv fuel (off + fill_cnt) (buf_off + fill_cnt) st2
    else .ok st

/-- Observable outcome of read_file_cache: req.error, req.out_size (none
when left untouched), whether the stat RPC ran, whether the size entry
was inserted, and the loop state. -/
structure FCOut where
  error : Int
  out_size : Option Nat
  statCalled : Bool
  sizeInserted : Bool
  st : FCState
  deriving DecidableEq

/-- Tail of read_file_cache once the size is known (read.c:287-335): clamp
the window end to the size, run the segment loop, and on success set
req.error := 0 and req.out_size := end - req.offset computed in uint64
arithmetic (read.c:333), which wraps when offset exceeds end. -/
def read_file_cache_main (fuel : Nat) (req : Req) (env : FCEnv) (size : Nat)
    (statCalled sizeInserted : Bool) (buf0 : List Nat) : Option FCOut :=
  let endv := if req.offset + req.length > size then size else req.offset + req.length
  match fc_loop env endv fuel req.offset 0 ⟨[], [], [], buf0⟩ with
  | .ok st => some ⟨0, some (sub64 endv req.offset), statCalled, sizeInserted, st⟩
  | .fail e st => some ⟨e, none, statCalled, sizeInserted, st⟩
  | .fuelOut => none

/-- read.c read_file_cache: resolve the file size from the cache
(read.c:267-285) — a non-ENOENT cache error propagates with nothing
fetched; on ENOENT the stat RPC runs and the size is inserted — then run
the clamped segment loop. -/
def read_file_cache (fuel : Nat) (req : Req) (env : FCEnv) (buf0 : List Nat) : Option FCOut :=
  let st0 : FCState := ⟨[], [], [], buf0⟩
  let c := env.sizeCacheGet
  if c.1 ≠ 0 then
    if c.1 ≠ ENOENT then some ⟨c.1, none, false, false, st0⟩
    else
      match env.statRes with
      | .error e => some ⟨e, none, true, false, st0⟩
      | .ok sz => read_file_cache_main fuel req env sz true true buf0
  else read_file_cache_main fuel req env c.2 false false buf0

/-! Concrete instances used by the theorems below. -/

/-- A four-byte IO-plan object backed by object "a". -/
def objA : ReadObj := ⟨"a", 10, [⟨0, 4, 0, 4⟩]⟩

/-- A four-byte IO-plan object backed by object "b". -/
def objB : ReadObj := ⟨"b", 11, [⟨0, 4, 0, 4⟩]⟩

/-- An IO plan over the two objects above. -/
def ioAB : ReadIOPlan := ⟨[objA, objB], 8⟩

/-- A csw_get_request oracle that fails every call with error 5. -/
def freqFail : ReadObj → Int := fun _ => 5

/-- A csw oracle that always succeeds. -/
def respZero : ReadObj → Int := fun _ => 0

/-- An 8-byte file whose plan is one mapping into object "a". -/
def plan8 : ReadPlan := ⟨8, 24, [⟨"a", 0, 0, 8⟩]⟩

/-- Initial SegmentCache state with an 8-byte zeroed caller buffer. -/
def segSt0 : SegState := ⟨List.replicate 8 0, 0, 0, [], []⟩

/-- SegmentCache environment over plan8 with a cold cache and a backend
that fails the first get_data call and succeeds afterwards. -/
def segEnv8 : SegEnv :=
  ⟨8, ⟨0, 8⟩, fun _ => .ok plan8, fun _ => (ENOENT, []),
   fun n => if n = 0 then (5, []) else (0, [10, 11, 12, 13, 14, 15, 16, 17])⟩

/-- The SegmentCache state right after the first (failed) direct GET. -/
def segStX : SegState := ⟨List.replicate 8 0, 1, 1, [("a", 0, 8)], []⟩

/-- A 10-byte file whose plan is a single hole mapping (empty path). -/
def planHole : ReadPlan := ⟨10, 30, [⟨"", 0, 0, 10⟩]⟩

/-- SegmentCache environment over planHole with a cold cache and a
backend that always succeeds with a 16-byte line of sevens. -/
def segEnvHole : SegEnv :=
  ⟨16, ⟨0, 10⟩, fun _ => .ok planHole, fun _ => (ENOENT, []),
   fun _ => (0, List.replicate 16 7)⟩

/-- Initial SegmentCache state with a 10-byte zeroed caller buffer. -/
def segStH : SegState := ⟨List.replicate 10 0, 0, 0, [], []⟩

/-- An empty read plan, standing in for the unused value slot of a failed
cache lookup. -/
def dummyPlan : ReadPlan := ⟨0, 0, []⟩

/-- A NoCache environment none of whose collaborators are reached. -/
def ncDummy : NCEnv := ⟨(0, dummyPlan), fun _ _ => .error 5, fun _ => 0, fun _ => 0⟩

/-- FileCache environment with a cached file size of 100 and a cold data
cache, for the beyond-EOF boundary request. -/
def fcEnv150 : FCEnv := ⟨64, (0, 100), .error 5, fun _ => (ENOENT, []), fun _ => [], ncDummy⟩

/-- A 100-byte file whose plan is one mapping into object "a". -/
def plan100 : ReadPlan := ⟨100, 100, [⟨"a", 0, 0, 100⟩]⟩

/-- NoCache environment whose plan fetch always yields plan100. -/
def ncEnvPlan100 : NCEnv := ⟨(0, dummyPlan), fun _ _ => .ok plan100, fun _ => 0, fun _ => 0⟩

/-- SegmentCache environment over plan100 for the beyond-EOF request. -/
def segEnv150 : SegEnv :=
  ⟨8, ⟨150, 10⟩, fun _ => .ok plan100, fun _ => (ENOENT, []), fun _ => (0, [])⟩

/-- Inner NoCache environment for the FileCache scenario: plan-cache miss
and a metadata service returning, for a requested (offset, length), a
1000-byte file whose plan covers exactly the requested length. -/
def ncEnv6 : NCEnv :=
  ⟨(ENOENT, dummyPlan), fun _ l => .ok ⟨1000, l, [⟨"a", 0, 0, l⟩]⟩, fun _ => 0, fun _ => 0⟩

/-- Same inner environment but with the (0, 10)-plan already cached. -/
def ncEnv6hit : NCEnv :=
  ⟨(0, ⟨1000, 10, [⟨"a", 0, 0, 10⟩]⟩), fun _ l => .ok ⟨1000, l, [⟨"a", 0, 0, l⟩]⟩,
   fun _ => 0, fun _ => 0⟩

/-- FileCache environment with a cached file size of 1000, cold data
cache, and inner fetches depositing lines of threes. -/
def fcEnv6 : FCEnv :=
  ⟨64, (0, 1000), .error 5, fun _ => (ENOENT, []), fun _ => List.replicate 64 3, ncEnv6⟩

/-- NoCache environment whose plan-cache lookup fails with error e. -/
def ncEnvCacheErr (e : Int) : NCEnv := ⟨(e, dummyPlan), fun _ _ => .error 5, fun _ => 0, fun _ => 0⟩

/-- NoCache environment whose plan-cache lookup misses (ENOENT). -/
def ncEnvMiss : NCEnv :=
  ⟨(ENOENT, dummyPlan), fun _ l => .ok ⟨100, l, [⟨"a", 0, 0, l⟩]⟩, fun _ => 0, fun _ => 0⟩

/-- SegmentCache environment whose cache lookup fails with error e. -/
def segEnvCacheErr (e : Int) : SegEnv :=
  ⟨8, ⟨0, 8⟩, fun _ => .ok plan8, fun _ => (e, []), fun _ => (0, List.replicate 8 1)⟩

/-- FileCache environment whose size-cache lookup fails with error e. -/
def fcEnvSizeErr (e : Int) : FCEnv :=
  ⟨64, (e, 0), .error 5, fun _ => (ENOENT, []), fun _ => [], ncDummy⟩

/-- FileCache environment with a cached size of 100 whose data-cache
lookup fails with error e. -/
def fcEnvDataErr (e : Int) : FCEnv :=
  ⟨64, (0, 100), .error 5, fun _ => (e, []), fun _ => [], ncDummy⟩

/-- The well-formed wire payload of one record: path "a", start 0, size 5,
with file_size 10 and total size 21. -/
def payload5 : List Nat := encodePayload 10 21 [("a", 0, 5)]

/-- A 10-byte file whose single mapping [0, 5) ends exactly at the
requested offset of req7. -/
def plan7 : ReadPlan := ⟨10, 5, [⟨"a", 0, 0, 5⟩]⟩

/-- Request starting exactly where plan7's mapping ends. -/
def req7 : Req := ⟨5, 3⟩


/-! Helper lemmas. -/

/-- The request phase never issues a GET for a hole (empty path). -/
theorem reqPhase_not_hole (freq : ReadObj → Int) :
    ∀ objs : List ReadObj, "" ∉ (reqPhase freq objs).1 := by
  intro objs
  induction objs with
  | nil => simp [reqPhase]
  | cons o os ih =>
    by_cases hp : o.obj_path = ""
    · simpa [reqPhase, hp] using ih
    · by_cases he : freq o ≠ 0
      · simp [reqPhase, hp, he]
        exact fun h => hp h.symm
      · simp only [reqPhase, if_neg hp, if_neg he]
        intro h
        rcases List.mem_cons.mp h with h1 | h1
        · exact hp h1.symm
        · exact ih h1

/-- buildLoop stops immediately once the byte budget is exhausted. -/
theorem buildLoop_nonpos (count : Int) (start buf_idx : Nat) (objs : List ReadObj)
    (ms : List RangeMapping) (h : count ≤ 0) :
    buildLoop count start buf_idx objs ms = objs := by
  cases ms with
  | nil => rfl
  | cons m ms => simp [buildLoop, h]

/-- A leading mapping ending strictly before the start cursor is skipped
by the walk. -/
theorem buildLoop_skip (count : Int) (start buf_idx : Nat) (objs : List ReadObj)
    (m : RangeMapping) (ms : List RangeMapping) (h : m.offset + m.size < start) :
    buildLoop count start buf_idx objs (m :: ms) = buildLoop count start buf_idx objs ms := by
  by_cases hc : count ≤ 0
  · rw [buildLoop_nonpos _ _ _ _ _ hc, buildLoop_nonpos _ _ _ _ _ hc]
  · simp [buildLoop, hc, h]

/-- insert_range does not change the object's path. -/
theorem insert_range_obj_path (o : ReadObj) (s c b : Nat) :
    (insert_range o s c b).obj_path = o.obj_path := rfl

/-- When the scan finds no object with the given path, no object in the
list has it. -/
theorem rec_add_find_none (b c s : Nat) (p : String) :
    ∀ objs : List ReadObj, rec_add_find b c s p objs = none →
      ∀ o ∈ objs, o.obj_path ≠ p := by
  intro objs
  induction objs with
  | nil => intro _ o ho; simp at ho
  | cons o os ih =>
    intro h x hx
    have hp : ¬o.obj_path = p := by
      intro hp
      simp [rec_add_find, hp] at h
    have hos : rec_add_find b c s p os = none := by
      rcases hfind : rec_add_find b c s p os with _ | os2
      · rfl
      · simp [rec_add_find, hp, hfind] at h
    rcases List.mem_cons.mp hx with hx1 | hx1
    · rw [hx1]; exact hp
    · exact ih hos x hx1

/-- When the scan finds the path, the updated list has the same path
sequence as the input. -/
theorem rec_add_find_some_paths (b c s : Nat) (p : String) :
    ∀ objs objs2 : List ReadObj, rec_add_find b c s p objs = some objs2 →
      objs2.map (fun o => o.obj_path) = objs.map (fun o => o.obj_path) := by
  intro objs
  induction objs with
  | nil => intro objs2 h; simp [rec_add_find] at h
  | cons o os ih =>
    intro objs2 h
    by_cases hp : o.obj_path = p
    · simp only [rec_add_find, if_pos hp, Option.some.injEq] at h
      rw [← h]
      simp [insert_range_obj_path]
    · rcases hfind : rec_add_find b c s p os with _ | os2
      · simp [rec_add_find, hp, hfind] at h
      · simp only [rec_add_find, if_neg hp, hfind, Option.some.injEq] at h
        rw [← h]
        simp [ih os2 hfind]

/-- read_io_plan_rec_add preserves distinctness of the object paths. -/
theorem rec_add_nodup (objs : List ReadObj) (b c s : Nat) (p : String)
    (h : (objs.map (fun o => o.obj_path)).Nodup) :
    ((read_io_plan_rec_add objs b c s p).map (fun o => o.obj_path)).Nodup := by
  rcases hfind : rec_add_find b c s p objs with _ | objs2
  · simp only [read_io_plan_rec_add, hfind]
    rw [List.map_cons, List.nodup_cons]
    refine ⟨?_, h⟩
    intro hmem
    rcases List.mem_map.mp hmem with ⟨o, ho, hpath⟩
    exact rec_add_find_none b c s p objs hfind o ho hpath
  · simp only [read_io_plan_rec_add, hfind]
    rw [rec_add_find_some_paths b c s p objs objs2 hfind]
    exact h

/-- The whole range walk preserves distinctness of the object paths. -/
theorem buildLoop_nodup :
    ∀ (ms : List RangeMapping) (count : Int) (start buf_idx : Nat) (objs : List ReadObj),
      (objs.map (fun o => o.obj_path)).Nodup →
      ((buildLoop count start buf_idx objs ms).map (fun o => o.obj_path)).Nodup := by
  intro ms
  induction ms with
  | nil => intro count start b objs h; simpa [buildLoop] using h
  | cons m ms ih =>
    intro count start b objs h
    by_cases hc : count ≤ 0
    · simpa [buildLoop, hc] using h
    · by_cases hskip : m.offset + m.size < start
      · simpa [buildLoop, hc, hskip] using ih count start b objs h
      · simp only [buildLoop, if_neg hc, if_neg hskip]
        exact ih _ _ _ _ (rec_add_nodup objs _ _ _ _ h)

/-! Claim theorems. -/

/-- C1: the blob fetcher does abort the remaining reads at the first
failure, but its return value is always 0: the outer err of
get_read_io_plan_data is shadowed by the loop-local declarations and
never assigned, so a failed batched GET still reports success — the
concrete run issues the GET for "a", sees error 5, reads no responses
(and never reaches "b"), yet returns 0. This refutes "returns the first
encountered error / returns 0 only when every request and response
succeeded". -/
theorem c1_fetcher_always_returns_zero :
    (∀ (rp : ReadIOPlan) (freq fresp : ReadObj → Int),
        (get_read_io_plan_data rp freq fresp).1 = 0) ∧
    get_read_io_plan_data ioAB freqFail respZero = (0, ⟨["a"], [], 5⟩) := by
  constructor
  · intro rp freq fresp
    unfold get_read_io_plan_data
    by_cases h : (reqPhase freq rp.objs).2 ≠ 0
    · simp [h]
    · simp [h]
  · rfl

/-- C4: the payload-read failure handler of get_read_plan aborts the
process for every error code — the third disjunct of the condition at
read.c:582 is the C assignment (err = EBADF), which is nonzero hence
true — so a transport error outside the designated set, such as
ECONNRESET, panics instead of being propagated as the claim states. -/
theorem c4_payload_error_always_panics :
    (∀ e : Int, payload_fail_handling e = .panic) ∧
    payload_fail_handling (-ECONNRESET) = .panic ∧
    (ECONNRESET ≠ EPIPE ∧ ECONNRESET ≠ ENODEV ∧ ECONNRESET ≠ EBADF) := by
  refine ⟨?_, rfl, by decide⟩
  intro e
  unfold payload_fail_handling
  by_cases h1 : -e = EPIPE
  · simp [h1]
  · by_cases h2 : -e = ENODEV
    · simp [h1, h2]
    · simp [h1, h2, EBADF]

/-- C5: decoding the well-formed one-record payload (path "a", start 0,
size 5) yields record_size 1280, not 5: the cursor advance after the
path is strlen only, so the NUL terminator is read as the low byte of
object_start_offset and every later field is shifted by one byte. -/
theorem c5_decode_missing_nul_skip :
    buf_to_readplan payload5 7 = ⟨10, 21, [⟨"a", 0, 7, 1280⟩]⟩ ∧
    (1280 : Nat) ≠ 5 := by
  exact ⟨by decide, by decide⟩

/-- C7 counterexample: plan7's single mapping [0, 5) ends exactly at the
requested offset 5 of req7 — so per the claim it should contribute no
IORange — yet the built IO plan contains one (zero-length) IORange for
it, because the skip test at read.c:487 is strict less-than. -/
theorem c7_counterexample :
    (∀ m ∈ plan7.ranges, m.offset + m.size ≤ req7.offset) ∧
    build_read_io_plan plan7 req7 = ⟨[⟨"a", 10, [⟨5, 5, 0, 0⟩]⟩], 3⟩ ∧
    totalRanges (build_read_io_plan plan7 req7) = 1 := by
  exact ⟨by decide, by decide, by decide⟩

/-- C7 (amended): build_read_io_plan skips exactly the mappings that end
strictly before the requested start: removing a leading mapping with
offset + size < req.offset leaves the built IO plan unchanged. A mapping
ending exactly at the start is processed and contributes a zero-length
IORange (see the counterexample). -/
theorem c7_skip_strictly_before (fs sz : Nat) (m : RangeMapping)
    (ms : List RangeMapping) (req : Req) (h : m.offset + m.size < req.offset) :
    build_read_io_plan ⟨fs, sz, m :: ms⟩ req = build_read_io_plan ⟨fs, sz, ms⟩ req := by
  unfold build_read_io_plan
  dsimp only
  rw [buildLoop_skip _ _ _ _ _ _ h]

/-- Witness for C7 (amended) at a concrete mapping ending strictly before
the requested offset. -/
theorem c7_skip_strictly_before_witness :
    (0 + 5 < 10) ∧
    build_read_io_plan ⟨20, 5, [⟨"a", 0, 0, 5⟩]⟩ ⟨10, 4⟩ =
      build_read_io_plan ⟨20, 5, []⟩ ⟨10, 4⟩ :=
  ⟨by decide, c7_skip_strictly_before 20 5 ⟨"a", 0, 0, 5⟩ [] ⟨10, 4⟩ (by decide)⟩

/-- C9: in every IO plan produced by build_read_io_plan the object paths
are pairwise distinct — all ranges destined for the same backend object
are grouped into a single IOPlanObject. -/
theorem c9_no_duplicate_object_paths (rp : ReadPlan) (req : Req) :
    (((build_read_io_plan rp req).objs).map (fun o => o.obj_path)).Nodup := by
  unfold build_read_io_plan
  exact buildLoop_nodup rp.ranges _ _ _ [] (by simp)

/-- C2: boundary request beyond EOF (file_size 100, offset 150, length
10). NoCache and SegmentCache report 0 bytes and issue no GET, but
FileCache computes out_size = end - offset in uint64 arithmetic
(read.c:333), which wraps to 2^64 - 50 — not 0 as the claim states —
while still reporting error 0 (a successful call). -/
theorem c2_out_size_boundary :
    read_file_cache 4 ⟨150, 10⟩ fcEnv150 [] =
      some ⟨0, some 18446744073709551566, false, false, ⟨[], [], [], []⟩⟩ ∧
    (18446744073709551566 : Nat) ≠ 0 ∧
    read_no_cache ⟨150, 10⟩ false 0 ncEnvPlan100 =
      ⟨0, some 0, [(150, 10)], false, some ⟨[], [], 0⟩⟩ ∧
    read_seg_cache_go segEnv150 2 8 0 ⟨[], 0, 0, [], []⟩ =
      .success 0 ⟨[], 1, 0, [], []⟩ := by
  exact ⟨rfl, by decide, rfl, rfl⟩

/-- C3: the blob fetcher never issues a GET for a hole (first conjunct,
for every IO plan), but read_seg_cache has no hole check: with a plan
consisting of a single hole mapping and a cold cache, the call issues
get_data with the empty object path — a backend GET for a hole —
refuting the claim for the SegmentCache strategy. -/
theorem c3_hole_get :
    (∀ (rp : ReadIOPlan) (freq fresp : ReadObj → Int),
        "" ∉ (get_read_io_plan_data rp freq fresp).2.requests) ∧
    read_seg_cache_go segEnvHole 2 8 0 segStH =
      .success 10 ⟨List.replicate 10 7, 1, 1, [("", 0, 16)], [(0, 0)]⟩ := by
  constructor
  · intro rp freq fresp
    unfold get_read_io_plan_data
    by_cases h : (reqPhase freq rp.objs).2 ≠ 0
    · simpa [h] using reqPhase_not_hole freq rp.objs
    · simpa [h] using reqPhase_not_hole freq rp.objs
  · rfl

/-- C6: on a FileCache data-cache miss the inner NoCache call fetches the
plan with offset 0 but length 10 — the clamped end of the current
request — not the known file size 1000, contradicting the whole-file
wording (and the comment at read.c:86); a later call whose plan-cache
lookup hits does reuse the cached plan without fetching. -/
theorem c6_cached_plan_length :
    read_file_cache 4 ⟨0, 10⟩ fcEnv6 (List.replicate 10 0) =
      some ⟨0, some 10, false, false,
        ⟨[(0, 64, 10)], [(0, 10)], [0], List.replicate 10 3⟩⟩ ∧
    fcEnv6.sizeCacheGet = (0, 1000) ∧
    (read_no_cache ⟨0, 64⟩ true 10 ncEnv6hit).planFetches = [] := by
  exact ⟨rfl, rfl, rfl⟩

/-- C8: whenever a pass over the IO plan reports a stale plan (a failed
direct GET), read_seg_cache discards it and restarts from plan re-fetch
(first conjunct); concretely, with a backend failing exactly the first
get_data call, the call succeeds with the backend's bytes after exactly
one plan re-fetch: two plan fetches, two direct GETs, buffer filled with
the fetched line. -/
theorem c8_seg_cache_retry :
    (∀ (env : SegEnv) (retryFuel loopFuel attempt : Nat) (st : SegState)
        (rp : ReadPlan) (st2 : SegState),
        env.planFetch attempt = Except.ok rp →
        seg_objs_loop env loopFuel (build_read_io_plan rp env.req).objs
          { st with planFetches := st.planFetches + 1 } = SegStep.stale st2 →
        read_seg_cache_go env (retryFuel + 1) loopFuel attempt st =
          read_seg_cache_go env retryFuel loopFuel (attempt + 1) st2) ∧
    read_seg_cache_go segEnv8 3 16 0 segSt0 =
      .success 8 ⟨[10, 11, 12, 13, 14, 15, 16, 17], 2, 2,
        [("a", 0, 8), ("a", 0, 8)], [(0, 10)]⟩ := by
  constructor
  · intro env retryFuel loopFuel attempt st rp st2 h1 h2
    simp [read_seg_cache_go, h1, h2]
  · rfl

/-- Witness for C8: the general restart property applied to the concrete
fail-once environment, whose first pass is stale. -/
theorem c8_seg_cache_retry_witness :
    read_seg_cache_go segEnv8 2 16 0 segSt0 = read_seg_cache_go segEnv8 1 16 1 segStX :=
  c8_seg_cache_retry.1 segEnv8 1 16 0 segSt0 plan8 segStX rfl rfl


/-- A non-ENOENT cache error stops the SegmentCache inner loop at once,
with no direct GET and no state change. -/
theorem seg_off_loop_cache_error (env : SegEnv) (obj : ReadObj) (range : IORange)
    (fuel off buf_off : Nat) (st : SegState) (e : Int)
    (hlt : off < range.stop)
    (hc : (env.cacheGet (off / env.cls, obj.obj_num)).1 = e)
    (h0 : e ≠ 0) (h1 : e ≠ ENOENT) :
    seg_off_loop env obj range (fuel + 1) off buf_off st = .cacheFail e st := by
  rw [seg_off_loop]
  simp only [if_pos hlt, hc, h0, h1, ne_eq, not_false_eq_true, ite_true]

/-- A cache error reported by the pass over the IO plan becomes the
failure result of read_seg_cache. -/
theorem read_seg_cache_go_cacheFail (env : SegEnv) (rf lf attempt : Nat) (st : SegState)
    (rp : ReadPlan) (e : Int) (st2 : SegState)
    (h1 : env.planFetch attempt = Except.ok rp)
    (h2 : seg_objs_loop env lf (build_read_io_plan rp env.req).objs
      { st with planFetches := st.planFetches + 1 } = SegStep.cacheFail e st2) :
    read_seg_cache_go env (rf + 1) lf attempt st = .failure e st2 := by
  simp [read_seg_cache_go, h1, h2]

/-- A non-ENOENT cache error stops the FileCache segment loop at once,
with no inner fetch and no state change. -/
theorem fc_loop_cache_error (env : FCEnv) (endv fuel off buf_off : Nat) (st : FCState)
    (e : Int) (hlt : off < endv) (hc : (env.dataCacheGet (off / env.cls)).1 = e)
    (h0 : e ≠ 0) (h1 : e ≠ ENOENT) :
    fc_loop env endv (fuel + 1) off buf_off st = .fail e st := by
  rw [fc_loop]
  simp only [if_pos hlt, hc, h0, h1, ne_eq, not_false_eq_true, ite_true]

/-- C10: under all three strategies a cache_get error e other than ENOENT
lands in req.error unchanged with no fetch of any kind attempted —
NoCache's plan-cache lookup, SegmentCache's segment lookup (no direct
GET recorded), FileCache's size and data lookups (no stat, no inner
call) — while ENOENT acts as the miss signal: the NoCache plan-cache
miss fetches and inserts the plan and the call's error stays 0. -/
theorem c10_cache_error_propagation (e : Int) (h0 : e ≠ 0) (h1 : e ≠ ENOENT) :
    read_no_cache ⟨0, 10⟩ true 100 (ncEnvCacheErr e) = ⟨e, none, [], false, none⟩ ∧
    (∀ rf lf : Nat,
      read_seg_cache_go (segEnvCacheErr e) (rf + 1) (lf + 1) 0
          ⟨List.replicate 8 0, 0, 0, [], []⟩ =
        .failure e ⟨List.replicate 8 0, 1, 0, [], []⟩) ∧
    read_file_cache 4 ⟨0, 10⟩ (fcEnvSizeErr e) [] =
      some ⟨e, none, false, false, ⟨[], [], [], []⟩⟩ ∧
    (∀ f : Nat,
      read_file_cache (f + 1) ⟨0, 10⟩ (fcEnvDataErr e) [] =
        some ⟨e, none, false, false, ⟨[], [], [], []⟩⟩) ∧
    (read_no_cache ⟨0, 10⟩ true 100 ncEnvMiss).error = 0 ∧
    (read_no_cache ⟨0, 10⟩ true 100 ncEnvMiss).planFetches = [(0, 100)] ∧
    (read_no_cache ⟨0, 10⟩ true 100 ncEnvMiss).planCacheInsert = true := by
  refine ⟨?_, ?_, ?_, ?_, rfl, rfl, rfl⟩
  · simp only [read_no_cache, ncEnvCacheErr, h0, h1, ne_eq, not_false_eq_true, if_true,
      ite_true, if_pos]
  · intro rf lf
    have hoff : seg_off_loop (segEnvCacheErr e)
        ⟨"a", 10, [⟨0, 8, 0, 8⟩]⟩ ⟨0, 8, 0, 8⟩
        (lf + 1) 0 0 ⟨List.replicate 8 0, 1, 0, [], []⟩ =
        .cacheFail e ⟨List.replicate 8 0, 1, 0, [], []⟩ :=
      seg_off_loop_cache_error _ _ _ lf 0 0 _ e (by decide) rfl h0 h1
    have hrng : seg_ranges_loop (segEnvCacheErr e)
        ⟨"a", 10, [⟨0, 8, 0, 8⟩]⟩ (lf + 1)
        [⟨0, 8, 0, 8⟩] ⟨List.replicate 8 0, 1, 0, [], []⟩ =
        .cacheFail e ⟨List.replicate 8 0, 1, 0, [], []⟩ := by
      rw [seg_ranges_loop]
      dsimp only
      rw [hoff]
    have hobjs : seg_objs_loop (segEnvCacheErr e) (lf + 1)
        [⟨"a", 10, [⟨0, 8, 0, 8⟩]⟩]
        ⟨List.replicate 8 0, 1, 0, [], []⟩ =
        .cacheFail e ⟨List.replicate 8 0, 1, 0, [], []⟩ := by
      rw [seg_objs_loop]
      dsimp only
      rw [hrng]
    have hreq : (segEnvCacheErr e).req = (⟨0, 8⟩ : Req) := rfl
    have hbuild : build_read_io_plan plan8 ⟨0, 8⟩ =
        ⟨[⟨"a", 10, [⟨0, 8, 0, 8⟩]⟩], 8⟩ := by decide
    refine read_seg_cache_go_cacheFail (segEnvCacheErr e) rf (lf + 1) 0 _ plan8 e _ rfl ?_
    rw [hreq, hbuild]
    exact hobjs
  · have hsc : (fcEnvSizeErr e).sizeCacheGet = (e, 0) := rfl
    simp only [read_file_cache, hsc, h0, h1, ne_eq, not_false_eq_true, ite_true]
  · intro f
    have hfl : fc_loop (fcEnvDataErr e) 10 (f + 1) 0 0 ⟨[], [], [], []⟩ =
        .fail e ⟨[], [], [], []⟩ :=
      fc_loop_cache_error _ 10 f 0 0 _ e (by decide) rfl h0 h1
    have hsc : (fcEnvDataErr e).sizeCacheGet = ((0 : Int), 100) := rfl
    simp [read_file_cache, read_file_cache_main, hsc, hfl]

/-- Witness for C10 at the concrete cache error 5. -/
theorem c10_cache_error_propagation_witness :
    read_no_cache ⟨0, 10⟩ true 100 (ncEnvCacheErr 5) = ⟨5, none, [], false, none⟩ :=
  (c10_cache_error_propagation 5 (by decide) (by decide)).1
